import Mathlib

/-!
Shallow embedding of the Game-Dev-RAG-Assistant retrieval pipeline
(src/rag-pipeline: loader.py, embedder.py, retriever.py, qa_chain.py).

External collaborators (the tiktoken tokenizer, the recursive character
splitter, the embedding service, the FAISS store, the filesystem and the
text-generation service) are modelled as explicit function parameters, as
the spec treats them as external interfaces.  Python floats that only ever
get compared against a threshold are modelled as rationals.
-/

/-! ### Python string primitives (ASCII fragment)

Whitespace is the ASCII fragment of Python's `str.strip` / regex `\s`
class; all heading-class characters are ASCII, so this fragment is the
relevant one. -/

/-- Python whitespace test (ASCII fragment of `\s` and `str.strip`). -/
def pyWs (c : Char) : Bool :=
  c == ' ' || c == '\t' || c == '\n' || c == '\r' || c == '\x0b' || c == '\x0c'

/-- Strip leading and trailing whitespace from a character list. -/
def stripList (l : List Char) : List Char :=
  List.rdropWhile pyWs (List.dropWhile pyWs l)

/-- Python `str.strip()` on the ASCII fragment. -/
def pyStrip (s : String) : String :=
  String.mk (stripList s.toList)

/-- Python `str.upper()` on one ASCII character. -/
def upperChar (c : Char) : Char :=
  if 97 ≤ c.toNat ∧ c.toNat ≤ 122 then Char.ofNat (c.toNat - 32) else c

/-- Python `str.upper()` on the ASCII fragment. -/
def pyUpper (s : String) : String :=
  String.mk (s.toList.map upperChar)

/-- Python `"\n".join(ls)`. -/
def joinLines (ls : List String) : String :=
  match ls with
  | [] => ""
  | l :: rest => rest.foldl (fun acc x => acc ++ "\n" ++ x) l

/-- Python `"\n\n".join(ls)`. -/
def joinBlank (ls : List String) : String :=
  match ls with
  | [] => ""
  | l :: rest => rest.foldl (fun acc x => acc ++ "\n\n" ++ x) l

/-! ### Chunker (loader.py, `DocumentHandler.load_and_split`) -/

/-- Membership in the regex character class of `loader.py` line 101:
the class `[A-Z0-9&\-\:\(\)\s]`. -/
def headingClassChar (c : Char) : Bool :=
  (65 ≤ c.toNat && c.toNat ≤ 90) || (48 ≤ c.toNat && c.toNat ≤ 57) ||
  c == '&' || c == '-' || c == ':' || c == '(' || c == ')' || pyWs c

/-- Membership in the regex class `[A-Z0-9]` of `loader.py` line 105. -/
def upperAlnum (c : Char) : Bool :=
  (65 ≤ c.toNat && c.toNat ≤ 90) || (48 ≤ c.toNat && c.toNat ≤ 57)

/-- Translation of `_is_heading_line` in loader.py lines 97-107: strip,
reject the empty string, require a full match of the heading class with
length at least 3, require the line to equal its own upper-cased form, and
require at least 3 characters to survive deleting everything outside
`[A-Z0-9]`. -/
def _is_heading_line (s : String) : Bool :=
  let t := pyStrip s
  if t = "" then false
  else if ¬ (t.toList.all headingClassChar = true ∧ 3 ≤ t.length) then false
  else if t ≠ pyUpper t then false
  else if (t.toList.filter upperAlnum).length < 3 then false
  else true

/-- A flushed section: the intermediate `{"heading": ..., "text": ...}`
dictionaries built in loader.py lines 110-130. -/
structure HeadingSection where
  heading : Option String
  text : String
deriving Repr, DecidableEq

/-- Flush the line buffer as in loader.py lines 116-121 and 126-130: a
non-empty buffer becomes one section whose text is the stripped
newline-join of the buffered lines. -/
def flushBuffer (ch : Option String) (buffer : List String) : List HeadingSection :=
  if buffer.isEmpty then [] else [⟨ch, pyStrip (joinLines buffer)⟩]

/-- The line scan of loader.py lines 114-130, carrying the current heading
and the buffer of body lines. -/
def buildSectionsGo : List String → Option String → List String → List HeadingSection
  | [], ch, buffer => flushBuffer ch buffer
  | l :: ls, ch, buffer =>
    if _is_heading_line l then
      flushBuffer ch buffer ++ buildSectionsGo ls (some (pyStrip l)) []
    else
      buildSectionsGo ls ch (buffer ++ [l])

/-- Sectioning pass of `load_and_split`: initial heading `None`, empty
buffer. -/
def buildSections (lines : List String) : List HeadingSection :=
  buildSectionsGo lines none []

/-- A produced chunk: `{"content": ..., "heading": ...}`. -/
structure Chunk where
  content : String
  heading : Option String
deriving Repr, DecidableEq

/-- The chunks contributed by one section in loader.py lines 138-148:
empty text is skipped; over the token limit the external splitter's pieces
are emitted; otherwise the section text is emitted verbatim as one chunk.
`countTokens` stands for the external tiktoken `_count_tokens`, `splitter`
for the external `RecursiveCharacterTextSplitter.create_documents`. -/
def sectionChunks (countTokens : String → Nat) (splitter : String → List String)
    (token_limit : Nat) (sec : HeadingSection) : List Chunk :=
  if sec.text = "" then []
  else if token_limit < countTokens sec.text then
    (splitter sec.text).map (fun p => ⟨p, sec.heading⟩)
  else [⟨sec.text, sec.heading⟩]

/-- Translation of `DocumentHandler.load_and_split` (loader.py lines
109-153) with the input text already split into lines. -/
def load_and_split (countTokens : String → Nat) (splitter : String → List String)
    (token_limit : Nat) (lines : List String) : List Chunk :=
  ((buildSections lines).map (sectionChunks countTokens splitter token_limit)).flatten

/-- Restatement of the spec's heading-detection sentence, written from the
spec's words for comparison with `_is_heading_line`: after trimming the
line is non-empty, fully matches the character class with length at least
3, equals its own upper-cased form, and keeps at least 3 alphanumeric
characters after removing non-alphanumerics. -/
def HeadingLineSpec (s : String) : Prop :=
  pyStrip s ≠ "" ∧
  3 ≤ (pyStrip s).length ∧
  (∀ c ∈ (pyStrip s).toList, headingClassChar c = true) ∧
  pyStrip s = pyUpper (pyStrip s) ∧
  3 ≤ ((pyStrip s).toList.filter upperAlnum).length

/-! ### Retriever (retriever.py, `RetrieverHandler`)

The FAISS handle is modelled by the directory string it was loaded from:
the claims about the Retriever concern only which fields are set, failure
propagation and replacement, never FAISS internals (an external library).
The filesystem is an explicit predicate `fs` saying which paths exist, and
the external search calls are explicit functions of the loaded handle. -/

/-- A LangChain document: `page_content` plus the `heading` metadata
entry (the only metadata key this code base uses). -/
structure PyDoc where
  page_content : String
  heading : String
deriving Repr, DecidableEq

/-- Translation of `RetrieverHandler.__init__` state: the base directory
and the two initially-`None` fields `vectorstore` and `retriever`. -/
structure RetrieverHandler where
  base_faiss_dir : String
  vectorstore : Option String
  retriever : Option String
deriving Repr, DecidableEq

/-- Constructor state of `RetrieverHandler` (retriever.py lines 13-25). -/
def initHandler (base : String) : RetrieverHandler :=
  ⟨base, none, none⟩

/-- Python `s.replace(a, b)` for a single-character pattern: replace
every occurrence of the character `a` by `b`. -/
def replaceChar (a b : Char) (s : String) : String :=
  String.mk (s.toList.map (fun c => if c = a then b else c))

/-- Translation of `RetrieverHandler._safe_heading_name` (retriever.py
lines 27-31): replace `/`, `\` and space by `_` (all three patterns are
single characters). -/
def _safe_heading_name (heading : String) : String :=
  replaceChar ' ' '_' (replaceChar '\\' '_' (replaceChar '/' '_' heading))

/-- Model of `os.path.join` for this code base's forward-slash use. -/
def pathJoin (a b : String) : String := a ++ "/" ++ b

/-- Message of the `FileNotFoundError` raised in retriever.py line 41. -/
def indexNotFoundMsg (heading : String) : String :=
  "No FAISS index found for heading: " ++ heading

/-- Message of the `RuntimeError` raised in retriever.py lines 55 and 63. -/
def notLoadedMsg : String :=
  "No heading index loaded. Call load_heading_index() first."

/-- Translation of `RetrieverHandler.load_heading_index` (retriever.py
lines 33-48): resolve the safe directory, fail with `FileNotFoundError` if
it does not exist (the handler unchanged, as the raise precedes every
assignment), otherwise set both `vectorstore` and `retriever` from the
freshly loaded index. -/
def load_heading_index (fs : String → Bool) (h : RetrieverHandler)
    (heading : String) : Except String RetrieverHandler :=
  let safe_heading := _safe_heading_name heading
  let heading_dir := pathJoin h.base_faiss_dir safe_heading
  if fs heading_dir then
    .ok { h with vectorstore := some heading_dir, retriever := some heading_dir }
  else
    .error (indexNotFoundMsg heading)

/-- Translation of `RetrieverHandler.query` (retriever.py lines 50-56):
guard on the `retriever` field, then take the first `k` relevant
documents. `sr` stands for the external `get_relevant_documents`. -/
def query (sr : String → String → List PyDoc) (h : RetrieverHandler)
    (query_text : String) (k : Nat) : Except String (List PyDoc) :=
  match h.retriever with
  | none => .error notLoadedMsg
  | some r => .ok ((sr r query_text).take k)

/-- Translation of `RetrieverHandler.query_with_scores` (retriever.py
lines 58-64): guard on the `vectorstore` field, then call the external
`similarity_search_with_score` (`sws`) with `k`. -/
def query_with_scores (sws : String → String → Nat → List (PyDoc × Rat))
    (h : RetrieverHandler) (query_text : String) (k : Nat) :
    Except String (List (PyDoc × Rat)) :=
  match h.vectorstore with
  | none => .error notLoadedMsg
  | some vs => .ok (sws vs query_text k)

/-- One call against a `RetrieverHandler`, for reasoning about reachable
states of its mutable fields. -/
inductive RCall where
  | load (fs : String → Bool) (heading : String)
  | doQuery (sr : String → String → List PyDoc) (q : String) (k : Nat)
  | doQueryWithScores (sws : String → String → Nat → List (PyDoc × Rat))
      (q : String) (k : Nat)

/-- State transition of one call: a failed load raises with the handler
unchanged; query calls never mutate the handler. -/
def stepCall (h : RetrieverHandler) : RCall → RetrieverHandler
  | .load fs heading =>
    match load_heading_index fs h heading with
    | .ok h2 => h2
    | .error _ => h
  | .doQuery _ _ _ => h
  | .doQueryWithScores _ _ _ => h

/-- Run a sequence of calls from a state. -/
def runTrace (h : RetrieverHandler) : List RCall → RetrieverHandler
  | [] => h
  | c :: cs => runTrace (stepCall h c) cs

/-- Whether one call is a `load_heading_index` call that succeeds in the
given state. -/
def loadSucceeded (h : RetrieverHandler) : RCall → Bool
  | .load fs heading =>
    match load_heading_index fs h heading with
    | .ok _ => true
    | .error _ => false
  | .doQuery _ _ _ => false
  | .doQueryWithScores _ _ _ => false

/-- Whether any load in the trace succeeds, evaluated along the run. -/
def loadSucceededIn (h : RetrieverHandler) : List RCall → Bool
  | [] => false
  | c :: cs => loadSucceeded h c || loadSucceededIn (stepCall h c) cs

/-! ### Answer orchestrator (qa_chain.py, `QAChain`) -/

/-- The `{heading, answer, sources}` dictionary returned by
`QAChain.answer_query`. -/
structure QueryResult where
  heading : String
  answer : String
  sources : List String
deriving Repr, DecidableEq

/-- Translation of `QAChain.__init__` state (qa_chain.py lines 8-31): the
score threshold (constructor default 0.4), the base directory, the heading
list read from the headings file, and the owned `RetrieverHandler`. -/
structure QAChain where
  score_threshold : Rat
  faiss_base_dir : String
  headings : List String
  retrieverH : RetrieverHandler
deriving Repr, DecidableEq

/-- Heading-list loading of qa_chain.py line 21: strip each line of the
headings file and keep the non-blank ones. -/
def loadHeadingsFile (fileLines : List String) : List String :=
  (fileLines.map pyStrip).filter (fun h => h ≠ "")

/-- Construct a `QAChain` as `__init__` does, from the headings file's
lines. The constructor default for the threshold is 0.4 = 2/5. -/
def mkQAChain (faiss_base_dir : String) (headingFileLines : List String)
    (score_threshold : Rat) : QAChain :=
  ⟨score_threshold, faiss_base_dir, loadHeadingsFile headingFileLines,
    initHandler faiss_base_dir⟩

/-- Constructor default of the `score_threshold` parameter. -/
def defaultScoreThreshold : Rat := 2 / 5

/-- Translation of `QAChain.select_heading` (qa_chain.py lines 33-51):
the external generation call (`llmSelect`, abstracting the prompt over the
heading list and the query) followed by `.strip()`. -/
def select_heading (llmSelect : List String → String → String)
    (qa : QAChain) (q : String) : String :=
  pyStrip (llmSelect qa.headings q)

/-- Fixed answer of qa_chain.py line 70. -/
def noIndexAnswer : String := "No FAISS index found for this heading."

/-- Fixed answer of qa_chain.py line 85. -/
def lowRelevanceAnswer : String := "No relevant context found above score threshold."

/-- Translation of `QAChain.answer_query` (qa_chain.py lines 53-113):
select a heading; try to load its index, turning the `FileNotFoundError`
into the fixed no-index result; retrieve the top 8 scored chunks; keep
those with score at least the threshold; if none survive return the fixed
low-relevance result; otherwise build the context and the 200-character
source snippets and ask the generation service (`llmAnswer`, a function of
the question and the context blob), stripping its reply. -/
def answer_query (llmSelect : List String → String → String)
    (sws : String → String → Nat → List (PyDoc × Rat))
    (fs : String → Bool)
    (llmAnswer : String → String → String)
    (qa : QAChain) (q : String) : Except String QueryResult :=
  let chosen_heading := select_heading llmSelect qa q
  match load_heading_index fs qa.retrieverH chosen_heading with
  | .error _ => .ok ⟨chosen_heading, noIndexAnswer, []⟩
  | .ok r2 =>
    match query_with_scores sws r2 q 8 with
    | .error e => .error e
    | .ok docs_with_scores =>
      let kept := docs_with_scores.filter (fun ds => qa.score_threshold ≤ ds.2)
      if kept = [] then .ok ⟨chosen_heading, lowRelevanceAnswer, []⟩
      else
        let context := joinBlank (kept.map (fun ds => ds.1.page_content))
        let sources := kept.map (fun ds => ds.1.page_content.take 200)
        let answer := pyStrip (llmAnswer q context)
        .ok ⟨chosen_heading, answer, sources⟩

/-! ### Index builder (embedder.py, `create_embeddings`)

The external `embed_documents` call is an oracle `oc` giving, for each
batch index and attempt number, either the batch's embedding vectors or
the text of the exception it raises.  File writes and the per-batch
progress prints are recorded as an explicit event trace. -/

/-- One record of `embeddings_data` (embedder.py lines 56-61). -/
structure EmbRecord where
  content : String
  heading : String
  embedding : List Rat
deriving Repr, DecidableEq

/-- Whether the first list is a leading segment of the second. -/
def leadsList : List Char → List Char → Bool
  | [], _ => true
  | _ :: _, [] => false
  | n :: ns, h :: hs => n == h && leadsList ns hs

/-- Whether the first list occurs contiguously inside the second. -/
def occursIn (needle : List Char) : List Char → Bool
  | [] => leadsList needle []
  | h :: hs => leadsList needle (h :: hs) || occursIn needle hs

/-- The rate-limit test of embedder.py line 66: the substring test
`"429" in str(e)`. -/
def isRateLimit (e : String) : Bool :=
  occursIn "429".toList e.toList

/-- Outcome of the 5-attempt retry loop for one batch. -/
inductive BatchOutcome (α : Type) where
  | ok (v : α)
  | raised (e : String)
  | exhausted
deriving Repr, DecidableEq

/-- The retry loop of embedder.py lines 47-71 for one batch, from attempt
`a` with the given remaining attempts: success breaks out with the
embeddings; a rate-limit error sleeps and retries; any other error
re-raises; running out of attempts falls through the `for` silently. -/
def runAttempts (oc : Nat → Except String (List (List Rat))) :
    Nat → Nat → BatchOutcome (List (List Rat))
  | _, 0 => .exhausted
  | a, fuel + 1 =>
    match oc a with
    | .ok v => .ok v
    | .error e => if isRateLimit e then runAttempts oc (a + 1) fuel else .raised e

/-- Fuel-driven batching recursion: every step consumes at least one
element, so fuel equal to the list length always suffices and the
fuel-exhaustion case is unreachable. -/
def chunksOfFuel {α : Type} (n : Nat) : Nat → List α → List (List α)
  | _, [] => []
  | 0, _ :: _ => []
  | fuel + 1, x :: xs => (x :: xs.take (n - 1)) :: chunksOfFuel n fuel (xs.drop (n - 1))

/-- The batching `docs[i:i+batch_size]` of embedder.py lines 44-45, for a
positive step (the default is 5; Python rejects a zero step). -/
def chunksOf {α : Type} (n : Nat) (l : List α) : List (List α) :=
  chunksOfFuel n l.length l

/-- Observable events of `create_embeddings`: the per-batch progress
print of line 73 and the single file write of lines 76-77. -/
inductive EmbEvent where
  | batchProcessed (i : Nat)
  | fileWrite (data : List EmbRecord)
deriving Repr, DecidableEq

/-- True exactly on file-write events. -/
def isWriteEvent : EmbEvent → Bool
  | .fileWrite _ => true
  | .batchProcessed _ => false

/-- The batch loop of embedder.py lines 44-73: per batch, run the retry
loop; a re-raised error aborts the whole call; a success appends the
zipped records and prints; an exhausted retry loop appends nothing and
still prints, silently moving to the next batch. -/
def processFrom (oc : Nat → Nat → Except String (List (List Rat))) :
    List (List PyDoc) → Nat → List EmbEvent × Except String (List EmbRecord)
  | [], _ => ([], .ok [])
  | b :: rest, i =>
    match runAttempts (oc i) 0 5 with
    | .raised e => ([], .error e)
    | .ok embs =>
      let recs := (b.zip embs).map (fun de => ⟨de.1.page_content, de.1.heading, de.2⟩)
      let r := processFrom oc rest (i + 1)
      (.batchProcessed i :: r.1, r.2.map (fun tail => recs ++ tail))
    | .exhausted =>
      let r := processFrom oc rest (i + 1)
      (.batchProcessed i :: r.1, r.2)

/-- Translation of `create_embeddings` (embedder.py lines 26-79): run all
batches, then — only if no exception escaped — write `embeddings_data` to
the output path once and return the saved message. -/
def create_embeddings (oc : Nat → Nat → Except String (List (List Rat)))
    (docs : List PyDoc) (output_path : String) (batch_size : Nat) :
    List EmbEvent × Except String String :=
  let r := processFrom oc (chunksOf batch_size docs) 0
  match r.2 with
  | .error e => (r.1, .error e)
  | .ok data =>
    (r.1 ++ [.fileWrite data], .ok ("Embeddings saved to " ++ output_path))

/-! ### Helper lemmas on stripping -/

/-- Unfolding of `String.toList` on a constructed string. -/
theorem toList_mk (l : List Char) : (String.mk l).toList = l := rfl

/-- If a list followed by anything survives `dropWhile`, so does the list
itself. -/
theorem dropWhile_self_of_append {α : Type} (p : α → Bool) (b t : List α)
    (h : List.dropWhile p (b ++ t) = b ++ t) : List.dropWhile p b = b := by
  cases b with
  | nil => rfl
  | cons x xs =>
    rw [List.cons_append, List.dropWhile_cons] at h
    by_cases hx : p x
    · exfalso
      rw [if_pos hx] at h
      have hlen := congrArg List.length h
      have hle := (List.dropWhile_sublist (l := xs ++ t) p).length_le
      simp [List.length_append] at hlen hle
      omega
    · rw [List.dropWhile_cons, if_neg hx]

/-- Stripping is idempotent on character lists. -/
theorem stripList_idem (l : List Char) : stripList (stripList l) = stripList l := by
  unfold stripList
  obtain ⟨t, ht⟩ := List.rdropWhile_prefix pyWs (List.dropWhile pyWs l)
  have h1 : List.dropWhile pyWs (List.dropWhile pyWs l) = List.dropWhile pyWs l :=
    List.dropWhile_idempotent pyWs l
  have h2 : List.dropWhile pyWs (List.rdropWhile pyWs (List.dropWhile pyWs l))
      = List.rdropWhile pyWs (List.dropWhile pyWs l) :=
    dropWhile_self_of_append pyWs _ t (by rw [ht]; exact h1)
  rw [h2, List.rdropWhile_idempotent]

/-- Python stripping is idempotent. -/
theorem pyStrip_idem (s : String) : pyStrip (pyStrip s) = pyStrip s := by
  show String.mk (stripList (String.mk (stripList s.toList)).toList) = _
  rw [toList_mk, stripList_idem]
  rfl

/-- Every section text produced by the line scan is already stripped. -/
theorem buildSectionsGo_text_stripped (lines : List String) :
    ∀ ch buffer sec, sec ∈ buildSectionsGo lines ch buffer →
      pyStrip sec.text = sec.text := by
  induction lines with
  | nil =>
    intro ch buffer sec h
    unfold buildSectionsGo flushBuffer at h
    split at h
    · simp at h
    · rw [List.mem_singleton] at h
      subst h
      exact pyStrip_idem _
  | cons l ls ih =>
    intro ch buffer sec h
    unfold buildSectionsGo at h
    split at h
    · rw [List.mem_append] at h
      rcases h with h | h
      · unfold flushBuffer at h
        split at h
        · simp at h
        · rw [List.mem_singleton] at h
          subst h
          exact pyStrip_idem _
      · exact ih _ _ _ h
    · exact ih _ _ _ h

/-- Every section produced by `buildSections` has stripped text. -/
theorem buildSections_text_stripped (lines : List String) (sec : HeadingSection)
    (h : sec ∈ buildSections lines) : pyStrip sec.text = sec.text :=
  buildSectionsGo_text_stripped lines none [] sec h

/-! ### Claim C6: heading classifier -/

/-- C6: for every input line, `_is_heading_line` returns true if and only
if the trimmed line is non-empty, fully matches the heading character
class with length at least 3, equals its own upper-cased form, and keeps
at least 3 alphanumeric characters; being a plain function of the line it
is pure and deterministic. -/
theorem C6_heading_classifier (s : String) :
    _is_heading_line s = true ↔ HeadingLineSpec s := by
  unfold _is_heading_line HeadingLineSpec
  dsimp only
  constructor
  · intro h
    by_cases h1 : pyStrip s = ""
    · rw [if_pos h1] at h
      exact absurd h (by simp)
    rw [if_neg h1] at h
    by_cases h2 : (pyStrip s).toList.all headingClassChar = true ∧ 3 ≤ (pyStrip s).length
    · rw [if_neg (not_not_intro h2)] at h
      by_cases h3 : pyStrip s = pyUpper (pyStrip s)
      · rw [if_neg (not_not_intro h3)] at h
        by_cases h4 : ((pyStrip s).toList.filter upperAlnum).length < 3
        · rw [if_pos h4] at h
          exact absurd h (by simp)
        · exact ⟨h1, h2.2, List.all_eq_true.mp h2.1, h3, by omega⟩
      · rw [if_pos h3] at h
        exact absurd h (by simp)
    · rw [if_pos h2] at h
      exact absurd h (by simp)
  · rintro ⟨hne, hlen, hall, hupper, halnum⟩
    rw [if_neg hne, if_neg (not_not_intro ⟨List.all_eq_true.mpr hall, hlen⟩),
      if_neg (not_not_intro hupper), if_neg (by omega)]

/-- C6 witness: the classifier and the spec predicate agree on the
concrete heading line of the spec's end-to-end scenario A. -/
theorem C6_heading_classifier_witness : HeadingLineSpec "PERFORMANCE" :=
  (C6_heading_classifier "PERFORMANCE").mp (by decide)

/-! ### Claim C7: one chunk per small section -/

/-- Concrete stand-in tokenizer for witnesses: every real tokenizer, the
cl100k encoding included, assigns the empty text zero tokens. -/
def tokLen (s : String) : Nat := s.length

/-- Concrete stand-in splitter for witnesses: return the text whole. -/
def spWhole (s : String) : List String := [s]

/-- C7 counterexample: on the input lines `AAA`, blank, `BBB`, the
sections list holds a section with empty flushed text whose token count is
at most 512, yet `load_and_split` emits no chunk at all for it — not
exactly one chunk as the claim states. -/
theorem C7_counterexample :
    (⟨some "AAA", ""⟩ : HeadingSection) ∈ buildSections ["AAA", "", "BBB"] ∧
    tokLen "" ≤ 512 ∧
    load_and_split tokLen spWhole 512 ["AAA", "", "BBB"] = [] := by
  decide

/-- C7 (amended): for every section with non-empty flushed text whose
token count does not exceed the limit, `load_and_split` emits exactly one
chunk for it, textually identical to the section's (already stripped)
text and carrying the section's heading; sections with empty flushed text
emit no chunk. -/
theorem C7_amended_single_chunk (ct : String → Nat) (sp : String → List String)
    (tl : Nat) (lines : List String) (sec : HeadingSection)
    (hmem : sec ∈ buildSections lines) (hne : sec.text ≠ "")
    (hsz : ct sec.text ≤ tl) :
    sectionChunks ct sp tl sec = [⟨sec.text, sec.heading⟩] ∧
    pyStrip sec.text = sec.text ∧
    load_and_split ct sp tl lines =
      ((buildSections lines).map (sectionChunks ct sp tl)).flatten := by
  refine ⟨?_, buildSections_text_stripped lines sec hmem, rfl⟩
  unfold sectionChunks
  rw [if_neg hne, if_neg (by omega)]

/-- C7 amended witness: the single section of the lines `AAA`, `body` is
under the limit and contributes exactly its own text as one chunk. -/
theorem C7_amended_witness :
    sectionChunks tokLen spWhole 512 ⟨some "AAA", "body"⟩ =
      [⟨"body", some "AAA"⟩] ∧
    pyStrip "body" = "body" ∧
    load_and_split tokLen spWhole 512 ["AAA", "body"] =
      ((buildSections ["AAA", "body"]).map (sectionChunks tokLen spWhole 512)).flatten :=
  C7_amended_single_chunk tokLen spWhole 512 ["AAA", "body"] ⟨some "AAA", "body"⟩
    (by decide) (by decide) (by decide)

/-! ### Claim C8: chunks are non-empty after trimming -/

/-- C8: provided the external splitter only returns pieces that are
non-empty after trimming (documented behavior of the recursive character
splitter, which strips whitespace and drops empty merges), every chunk
returned by `load_and_split` has content that is non-empty after
trimming; sections with empty flushed text never produce a chunk. -/
theorem C8_nonempty_chunks (ct : String → Nat) (sp : String → List String)
    (tl : Nat) (lines : List String)
    (hsp : ∀ s piece, piece ∈ sp s → pyStrip piece ≠ "") :
    ∀ c ∈ load_and_split ct sp tl lines, pyStrip c.content ≠ "" := by
  intro c hc
  unfold load_and_split at hc
  rw [List.mem_flatten] at hc
  obtain ⟨lc, hlc, hcl⟩ := hc
  rw [List.mem_map] at hlc
  obtain ⟨sec, hsec, rfl⟩ := hlc
  unfold sectionChunks at hcl
  split_ifs at hcl with h0 h1
  · simp at hcl
  · rw [List.mem_map] at hcl
    obtain ⟨p, hp, rfl⟩ := hcl
    exact hsp sec.text p hp
  · rw [List.mem_singleton] at hcl
    subst hcl
    dsimp only
    rw [buildSections_text_stripped lines sec hsec]
    exact h0

/-- Concrete stand-in splitter whose pieces are the fixed non-blank text
`X`, for the C8 witness. -/
def spX (_ : String) : List String := ["X"]

/-- C8 witness: the splitter contract holds for `spX` and the conclusion
holds on concrete input lines. -/
theorem C8_nonempty_chunks_witness :
    (∀ s piece, piece ∈ spX s → pyStrip piece ≠ "") ∧
    ∀ c ∈ load_and_split tokLen spX 512 ["AAA", "hello world"],
      pyStrip c.content ≠ "" := by
  have hsp : ∀ s piece, piece ∈ spX s → pyStrip piece ≠ "" := by
    intro s piece hp
    simp only [spX, List.mem_singleton] at hp
    subst hp
    decide
  exact ⟨hsp, C8_nonempty_chunks tokLen spX 512 ["AAA", "hello world"] hsp⟩

/-! ### Retriever lemmas -/

/-- A query errors with the not-loaded message exactly when the
`retriever` field is unset. -/
theorem query_error_iff (sr : String → String → List PyDoc)
    (h : RetrieverHandler) (q : String) (k : Nat) :
    query sr h q k = .error notLoadedMsg ↔ h.retriever = none := by
  cases hr : h.retriever <;> simp [query, hr]

/-- A scored query errors with the not-loaded message exactly when the
`vectorstore` field is unset. -/
theorem query_with_scores_error_iff
    (sws : String → String → Nat → List (PyDoc × Rat))
    (h : RetrieverHandler) (q : String) (k : Nat) :
    query_with_scores sws h q k = .error notLoadedMsg ↔ h.vectorstore = none := by
  cases hv : h.vectorstore <;> simp [query_with_scores, hv]

/-- Unfolding equation for `load_heading_index` with the two `let`
bindings substituted. -/
theorem load_heading_index_eq (fs : String → Bool) (h : RetrieverHandler)
    (heading : String) :
    load_heading_index fs h heading =
      if fs (pathJoin h.base_faiss_dir (_safe_heading_name heading)) then
        .ok { h with
          vectorstore := some (pathJoin h.base_faiss_dir (_safe_heading_name heading)),
          retriever := some (pathJoin h.base_faiss_dir (_safe_heading_name heading)) }
      else .error (indexNotFoundMsg heading) := rfl

/-- Unfolding equation for `stepCall` on a load call. -/
theorem stepCall_load_eq (fs : String → Bool) (h : RetrieverHandler)
    (heading : String) :
    stepCall h (.load fs heading) =
      if fs (pathJoin h.base_faiss_dir (_safe_heading_name heading)) then
        { h with
          vectorstore := some (pathJoin h.base_faiss_dir (_safe_heading_name heading)),
          retriever := some (pathJoin h.base_faiss_dir (_safe_heading_name heading)) }
      else h := by
  show (match load_heading_index fs h heading with
    | .ok h2 => h2 | .error _ => h) = _
  rw [load_heading_index_eq]
  by_cases hfs : fs (pathJoin h.base_faiss_dir (_safe_heading_name heading))
  · rw [if_pos hfs, if_pos hfs]
  · rw [if_neg hfs, if_neg hfs]

/-- One call preserves the field-coupling invariant: `vectorstore` is
unset exactly when `retriever` is. -/
theorem stepCall_preserves_coupling (h : RetrieverHandler) (c : RCall)
    (hinv : (h.vectorstore = none ↔ h.retriever = none)) :
    ((stepCall h c).vectorstore = none ↔ (stepCall h c).retriever = none) := by
  cases c with
  | load fs heading =>
    rw [stepCall_load_eq]
    by_cases hfs : fs (pathJoin h.base_faiss_dir (_safe_heading_name heading))
    · rw [if_pos hfs]
    · rw [if_neg hfs]
      exact hinv
  | doQuery sr q k => exact hinv
  | doQueryWithScores sws q k => exact hinv

/-- A whole trace preserves the field-coupling invariant. -/
theorem runTrace_coupling (cs : List RCall) :
    ∀ h : RetrieverHandler, (h.vectorstore = none ↔ h.retriever = none) →
    ((runTrace h cs).vectorstore = none ↔ (runTrace h cs).retriever = none) := by
  induction cs with
  | nil => intro h hinv; exact hinv
  | cons c cs ih =>
    intro h hinv
    exact ih (stepCall h c) (stepCall_preserves_coupling h c hinv)

/-- If no load in the trace succeeds, both fields stay unset from a state
in which both are unset. -/
theorem runTrace_none_of_no_load (cs : List RCall) :
    ∀ h : RetrieverHandler, h.vectorstore = none → h.retriever = none →
    loadSucceededIn h cs = false →
    (runTrace h cs).vectorstore = none ∧ (runTrace h cs).retriever = none := by
  induction cs with
  | nil =>
    intro h h1 h2 _
    exact ⟨h1, h2⟩
  | cons c cs ih =>
    intro h h1 h2 hno
    rw [loadSucceededIn, Bool.or_eq_false_iff] at hno
    obtain ⟨hc, hcs⟩ := hno
    have hstep : stepCall h c = h := by
      cases c with
      | load fs heading =>
        rw [loadSucceeded] at hc
        show (match load_heading_index fs h heading with
          | .ok h2 => h2 | .error _ => h) = h
        cases hl : load_heading_index fs h heading with
        | ok h2 => rw [hl] at hc; simp at hc
        | error e => rfl
      | doQuery sr q k => rfl
      | doQueryWithScores sws q k => rfl
    rw [runTrace, hstep]
    exact ih h h1 h2 (by rwa [hstep] at hcs)

/-! ### Claim C4: load failure leaves state unchanged, success replaces -/

/-- C4: when the heading's safe directory is absent, `load_heading_index`
fails with the `FileNotFoundError` message and the handler is unchanged
(a failed load mutates nothing); when the directory exists, the call
succeeds and both fields are replaced by the newly loaded index, whatever
was loaded before — a single active index. -/
theorem C4_load_heading_index (fs : String → Bool) (h : RetrieverHandler)
    (heading : String) :
    (fs (pathJoin h.base_faiss_dir (_safe_heading_name heading)) = false →
      load_heading_index fs h heading = .error (indexNotFoundMsg heading) ∧
      stepCall h (.load fs heading) = h) ∧
    (fs (pathJoin h.base_faiss_dir (_safe_heading_name heading)) = true →
      load_heading_index fs h heading =
        .ok { h with
          vectorstore := some (pathJoin h.base_faiss_dir (_safe_heading_name heading)),
          retriever := some (pathJoin h.base_faiss_dir (_safe_heading_name heading)) }) := by
  constructor
  · intro hfs
    have hfs0 : ¬ fs (pathJoin h.base_faiss_dir (_safe_heading_name heading)) = true := by
      rw [hfs]
      exact Bool.false_ne_true
    exact ⟨by rw [load_heading_index_eq, if_neg hfs0],
      by rw [stepCall_load_eq, if_neg hfs0]⟩
  · intro hfs
    rw [load_heading_index_eq, if_pos hfs]

/-- C4 witness: on a handler with a previously loaded index, a load
against an empty filesystem fails and changes nothing, and a load against
a full filesystem replaces the previous index. -/
theorem C4_load_heading_index_witness :
    (load_heading_index (fun _ => false) ⟨"base", some "old", some "old"⟩ "NEW HEADING" =
      .error (indexNotFoundMsg "NEW HEADING") ∧
      stepCall ⟨"base", some "old", some "old"⟩ (.load (fun _ => false) "NEW HEADING") =
        ⟨"base", some "old", some "old"⟩) ∧
    load_heading_index (fun _ => true) ⟨"base", some "old", some "old"⟩ "NEW HEADING" =
      .ok ⟨"base", some "base/NEW_HEADING", some "base/NEW_HEADING"⟩ := by
  constructor
  · exact (C4_load_heading_index (fun _ => false) ⟨"base", some "old", some "old"⟩
      "NEW HEADING").1 rfl
  · have := (C4_load_heading_index (fun _ => true) ⟨"base", some "old", some "old"⟩
      "NEW HEADING").2 rfl
    rw [this]
    rfl

/-! ### Claim C5: querying before any successful load raises NotLoaded -/

/-- C5: on every handler reached from the constructor by a trace in which
no `load_heading_index` call succeeded, both `query` and
`query_with_scores` fail with the not-loaded `RuntimeError`, propagated
to the caller as an error rather than a result. -/
theorem C5_query_before_load (base : String) (cs : List RCall)
    (hno : loadSucceededIn (initHandler base) cs = false)
    (sr : String → String → List PyDoc)
    (sws : String → String → Nat → List (PyDoc × Rat))
    (q : String) (k : Nat) :
    query sr (runTrace (initHandler base) cs) q k = .error notLoadedMsg ∧
    query_with_scores sws (runTrace (initHandler base) cs) q k =
      .error notLoadedMsg := by
  obtain ⟨hv, hr⟩ := runTrace_none_of_no_load cs (initHandler base) rfl rfl hno
  exact ⟨(query_error_iff sr _ q k).mpr hr,
    (query_with_scores_error_iff sws _ q k).mpr hv⟩

/-- C5 witness: after a constructor and one failed load, both query
operations raise the not-loaded error on concrete inputs. -/
theorem C5_query_before_load_witness :
    loadSucceededIn (initHandler "base") [.load (fun _ => false) "X Y"] = false ∧
    query (fun _ _ => []) (runTrace (initHandler "base") [.load (fun _ => false) "X Y"])
      "how" 4 = .error notLoadedMsg ∧
    query_with_scores (fun _ _ _ => [])
      (runTrace (initHandler "base") [.load (fun _ => false) "X Y"]) "how" 4 =
      .error notLoadedMsg :=
  ⟨rfl, C5_query_before_load "base" [.load (fun _ => false) "X Y"] rfl
    (fun _ _ => []) (fun _ _ _ => []) "how" 4⟩

/-! ### Claim C9: the two guard fields are coupled in every reachable state -/

/-- C9: in every state reachable from the constructor by any sequence of
calls, the `vectorstore` field is unset exactly when the `retriever`
field is; consequently `query` (guarding on `retriever`) and
`query_with_scores` (guarding on `vectorstore`) raise the not-loaded
error in exactly the same states. -/
theorem C9_guard_fields_coupled (base : String) (cs : List RCall) :
    ((runTrace (initHandler base) cs).vectorstore = none ↔
      (runTrace (initHandler base) cs).retriever = none) ∧
    ∀ (sr : String → String → List PyDoc)
      (sws : String → String → Nat → List (PyDoc × Rat)) (q : String) (k : Nat),
      (query sr (runTrace (initHandler base) cs) q k = .error notLoadedMsg ↔
        query_with_scores sws (runTrace (initHandler base) cs) q k =
          .error notLoadedMsg) := by
  have hcoup := runTrace_coupling cs (initHandler base) (by simp [initHandler])
  refine ⟨hcoup, fun sr sws q k => ?_⟩
  rw [query_error_iff, query_with_scores_error_iff]
  exact hcoup.symm

/-- C9 witness: the coupling consequence evaluated on a concrete trace of
one successful load followed by a failed load. -/
theorem C9_guard_fields_coupled_witness :
    query (fun _ _ => [])
      (runTrace (initHandler "base")
        [.load (fun _ => true) "A B", .load (fun _ => false) "C D"]) "how" 4 =
      .error notLoadedMsg ↔
    query_with_scores (fun _ _ _ => [])
      (runTrace (initHandler "base")
        [.load (fun _ => true) "A B", .load (fun _ => false) "C D"]) "how" 4 =
      .error notLoadedMsg :=
  (C9_guard_fields_coupled "base"
    [.load (fun _ => true) "A B", .load (fun _ => false) "C D"]).2
    (fun _ _ => []) (fun _ _ _ => []) "how" 4

/-! ### Claims C2 and C3: answer_query policy -/

/-- The scored retrieval `answer_query` performs for a chosen heading:
top-8 search against the heading's index directory (qa_chain.py line 75). -/
def retrievedFor (sws : String → String → Nat → List (PyDoc × Rat))
    (qa : QAChain) (chosen : String) (q : String) : List (PyDoc × Rat) :=
  sws (pathJoin qa.retrieverH.base_faiss_dir (_safe_heading_name chosen)) q 8

/-- The post-filter survivors of qa_chain.py lines 78-81: retrieved pairs
whose score is at least the threshold, in retrieval order. -/
def keptFor (sws : String → String → Nat → List (PyDoc × Rat))
    (qa : QAChain) (chosen : String) (q : String) : List (PyDoc × Rat) :=
  (retrievedFor sws qa chosen q).filter (fun ds => qa.score_threshold ≤ ds.2)

/-- C3: whenever the selected heading's index directory is absent,
`answer_query` returns the structured result with that heading, the fixed
no-index answer and empty sources — a normal return, not a propagated
failure. -/
theorem C3_no_index_result (llmSelect : List String → String → String)
    (sws : String → String → Nat → List (PyDoc × Rat)) (fs : String → Bool)
    (llmAnswer : String → String → String) (qa : QAChain) (q : String)
    (hmiss : fs (pathJoin qa.retrieverH.base_faiss_dir
      (_safe_heading_name (select_heading llmSelect qa q))) = false) :
    answer_query llmSelect sws fs llmAnswer qa q =
      .ok ⟨select_heading llmSelect qa q, noIndexAnswer, []⟩ := by
  unfold answer_query
  dsimp only
  rw [load_heading_index_eq, if_neg (by rw [hmiss]; exact Bool.false_ne_true)]

/-- Mocked collaborators for witnesses. -/
def fsNone (_ : String) : Bool := false

/-- Filesystem on which every path exists, for witnesses. -/
def fsAll (_ : String) : Bool := true

/-- Heading selector that always answers `NONEXISTENT`, as in the spec's
end-to-end scenario B. -/
def llmSelNone (_ : List String) (_ : String) : String := "NONEXISTENT"

/-- Heading selector that always answers `PERFORMANCE`, as in the spec's
end-to-end scenario A. -/
def llmSelP (_ : List String) (_ : String) : String := "PERFORMANCE"

/-- Search mock returning one high-scoring and one low-scoring chunk. -/
def swsW (_ : String) (_ : String) (_ : Nat) : List (PyDoc × Rat) :=
  [(⟨"Use object pooling.", "PERFORMANCE"⟩, 9 / 10),
   (⟨"irrelevant text", "PERFORMANCE"⟩, 1 / 10)]

/-- Generation mock for witnesses. -/
def llmAnsW (_ : String) (_ : String) : String := "mock answer"

/-- A concrete `QAChain` at the default threshold 0.4. -/
def qaW : QAChain := mkQAChain "faiss_indexes" ["PERFORMANCE", "", " MEMORY "] (2 / 5)

/-- C3 witness: scenario B of the spec, on a filesystem with no index
directories. -/
theorem C3_no_index_result_witness :
    fsNone (pathJoin qaW.retrieverH.base_faiss_dir
      (_safe_heading_name (select_heading llmSelNone qaW "anything"))) = false ∧
    answer_query llmSelNone swsW fsNone llmAnsW qaW "anything" =
      .ok ⟨"NONEXISTENT", noIndexAnswer, []⟩ := by
  refine ⟨rfl, ?_⟩
  rw [C3_no_index_result llmSelNone swsW fsNone llmAnsW qaW "anything" rfl]
  rfl

/-- C2: for every query whose selected heading's index loads successfully,
`answer_query` returns a result whose heading is the selected heading;
when no retrieved chunk reaches the threshold the sources are empty and
the answer is the fixed low-relevance message; otherwise the sources are
exactly the surviving chunks' contents truncated to 200 characters in
retrieval order — so no source ever comes from a chunk scoring below the
threshold. -/
theorem C2_threshold_filtering (llmSelect : List String → String → String)
    (sws : String → String → Nat → List (PyDoc × Rat)) (fs : String → Bool)
    (llmAnswer : String → String → String) (qa : QAChain) (q : String)
    (hload : fs (pathJoin qa.retrieverH.base_faiss_dir
      (_safe_heading_name (select_heading llmSelect qa q))) = true) :
    ∃ res,
      answer_query llmSelect sws fs llmAnswer qa q = .ok res ∧
      res.heading = select_heading llmSelect qa q ∧
      (keptFor sws qa (select_heading llmSelect qa q) q = [] →
        res.sources = [] ∧ res.answer = lowRelevanceAnswer) ∧
      (keptFor sws qa (select_heading llmSelect qa q) q ≠ [] →
        res.sources = (keptFor sws qa (select_heading llmSelect qa q) q).map
          (fun ds => ds.1.page_content.take 200)) ∧
      (∀ s ∈ res.sources, ∃ ds ∈ retrievedFor sws qa (select_heading llmSelect qa q) q,
        qa.score_threshold ≤ ds.2 ∧ s = ds.1.page_content.take 200) := by
  unfold answer_query
  dsimp only
  rw [load_heading_index_eq, if_pos hload]
  dsimp only [query_with_scores]
  by_cases hk : keptFor sws qa (select_heading llmSelect qa q) q = []
  · rw [if_pos (by unfold keptFor retrievedFor at hk; exact hk)]
    refine ⟨_, rfl, rfl, fun _ => ⟨rfl, rfl⟩, fun hne => absurd hk hne, ?_⟩
    intro s hs
    simp at hs
  · rw [if_neg (by unfold keptFor retrievedFor at hk; exact hk)]
    refine ⟨_, rfl, rfl, fun he => absurd he hk, fun _ => rfl, ?_⟩
    intro s hs
    dsimp only at hs
    rw [List.mem_map] at hs
    obtain ⟨ds, hds, rfl⟩ := hs
    rw [List.mem_filter] at hds
    exact ⟨ds, hds.1, of_decide_eq_true hds.2, rfl⟩

/-- C2 witness: scenario A of the spec with one chunk at score 9/10 and
one at 1/10 against the default threshold 2/5. -/
theorem C2_threshold_filtering_witness :
    ∃ res,
      answer_query llmSelP swsW fsAll llmAnsW qaW "How do I improve performance?" =
        .ok res ∧
      res.heading = select_heading llmSelP qaW "How do I improve performance?" ∧
      (keptFor swsW qaW (select_heading llmSelP qaW "How do I improve performance?")
          "How do I improve performance?" = [] →
        res.sources = [] ∧ res.answer = lowRelevanceAnswer) ∧
      (keptFor swsW qaW (select_heading llmSelP qaW "How do I improve performance?")
          "How do I improve performance?" ≠ [] →
        res.sources =
          (keptFor swsW qaW (select_heading llmSelP qaW "How do I improve performance?")
            "How do I improve performance?").map (fun ds => ds.1.page_content.take 200)) ∧
      (∀ s ∈ res.sources,
        ∃ ds ∈ retrievedFor swsW qaW
          (select_heading llmSelP qaW "How do I improve performance?")
          "How do I improve performance?",
        qaW.score_threshold ≤ ds.2 ∧ s = ds.1.page_content.take 200) :=
  C2_threshold_filtering llmSelP swsW fsAll llmAnsW qaW
    "How do I improve performance?" rfl

/-! ### Embedder lemmas -/

/-- Unfolding equation for one step of the retry loop. -/
theorem runAttempts_succ (oc : Nat → Except String (List (List Rat)))
    (a n : Nat) :
    runAttempts oc a (n + 1) =
      match oc a with
      | .ok v => .ok v
      | .error e =>
        if isRateLimit e then runAttempts oc (a + 1) n else .raised e := rfl

/-- If every remaining attempt fails with a rate-limit error, the retry
loop falls through silently. -/
theorem runAttempts_exhausted_of (oc : Nat → Except String (List (List Rat))) :
    ∀ fuel a, (∀ j, j < fuel → ∃ e, oc (a + j) = .error e ∧ isRateLimit e = true) →
    runAttempts oc a fuel = .exhausted := by
  intro fuel
  induction fuel with
  | zero => intro a _; rfl
  | succ n ih =>
    intro a hall
    obtain ⟨e, he, hr⟩ := hall 0 (Nat.succ_pos n)
    rw [Nat.add_zero] at he
    rw [runAttempts_succ, he]
    dsimp only
    rw [if_pos hr]
    exact ih (a + 1) (fun j hj => by
      have h2 := hall (j + 1) (by omega)
      rwa [show a + (j + 1) = a + 1 + j by omega] at h2)

/-- If some attempt within the budget fails with a non-rate-limit error
and all earlier attempts fail rate-limited, the retry loop re-raises that
error. -/
theorem runAttempts_raised_of (oc : Nat → Except String (List (List Rat))) :
    ∀ k a fuel e, k < fuel →
    (∀ j, j < k → ∃ e2, oc (a + j) = .error e2 ∧ isRateLimit e2 = true) →
    oc (a + k) = .error e → isRateLimit e = false →
    runAttempts oc a fuel = .raised e := by
  intro k
  induction k with
  | zero =>
    intro a fuel e hk _ he hnr
    obtain ⟨n, rfl⟩ : ∃ n, fuel = n + 1 := ⟨fuel - 1, by omega⟩
    rw [Nat.add_zero] at he
    rw [runAttempts_succ, he]
    dsimp only
    rw [if_neg (by rw [hnr]; exact Bool.false_ne_true)]
  | succ m ih =>
    intro a fuel e hk hbefore he hnr
    obtain ⟨n, rfl⟩ : ∃ n, fuel = n + 1 := ⟨fuel - 1, by omega⟩
    obtain ⟨e0, he0, hr0⟩ := hbefore 0 (Nat.succ_pos m)
    rw [Nat.add_zero] at he0
    rw [runAttempts_succ, he0]
    dsimp only
    rw [if_pos hr0]
    exact ih (a + 1) n e (by omega)
      (fun j hj => by
        have h2 := hbefore (j + 1) (by omega)
        rwa [show a + (j + 1) = a + 1 + j by omega] at h2)
      (by rwa [show a + (m + 1) = a + 1 + m by omega] at he) hnr

/-- Unfolding equation for the batch loop on a non-empty batch list. -/
theorem processFrom_cons (oc : Nat → Nat → Except String (List (List Rat)))
    (b : List PyDoc) (rest : List (List PyDoc)) (i : Nat) :
    processFrom oc (b :: rest) i =
      match runAttempts (oc i) 0 5 with
      | .raised e => ([], .error e)
      | .ok embs =>
        (.batchProcessed i :: (processFrom oc rest (i + 1)).1,
          (processFrom oc rest (i + 1)).2.map
            (fun tail => (b.zip embs).map
              (fun de => (⟨de.1.page_content, de.1.heading, de.2⟩ : EmbRecord)) ++ tail))
      | .exhausted =>
        (.batchProcessed i :: (processFrom oc rest (i + 1)).1,
          (processFrom oc rest (i + 1)).2) := rfl

/-- The batch loop itself never emits a file-write event. -/
theorem processFrom_no_write (oc : Nat → Nat → Except String (List (List Rat))) :
    ∀ (bl : List (List PyDoc)) (i : Nat),
      ((processFrom oc bl i).1.filter isWriteEvent) = [] := by
  intro bl
  induction bl with
  | nil => intro i; rfl
  | cons b rest ih =>
    intro i
    rw [processFrom_cons]
    cases hr : runAttempts (oc i) 0 5 with
    | ok v => simp [isWriteEvent, ih (i + 1)]
    | raised e => simp
    | exhausted => simp [isWriteEvent, ih (i + 1)]

/-- Prepending one processed-batch event to a shifted event range. -/
theorem range_map_shift (n i : Nat) :
    EmbEvent.batchProcessed i ::
        (List.range n).map (fun j => EmbEvent.batchProcessed (i + 1 + j)) =
      (List.range (n + 1)).map (fun j => EmbEvent.batchProcessed (i + j)) := by
  rw [List.range_succ_eq_map, List.map_cons, List.map_map]
  simp only [Nat.add_zero, Function.comp]
  congr 1
  apply List.map_congr_left
  intro a _
  congr 1
  omega

/-- If the batch loop succeeds, its event trace is exactly one processed
event per batch, in order. -/
theorem processFrom_events_of_ok (oc : Nat → Nat → Except String (List (List Rat))) :
    ∀ (bl : List (List PyDoc)) (i : Nat) (data : List EmbRecord),
      (processFrom oc bl i).2 = .ok data →
      (processFrom oc bl i).1 =
        (List.range bl.length).map (fun j => EmbEvent.batchProcessed (i + j)) := by
  intro bl
  induction bl with
  | nil => intro i data _; rfl
  | cons b rest ih =>
    intro i data h
    rw [processFrom_cons] at h ⊢
    generalize hra : runAttempts (oc i) 0 5 = ra at h ⊢
    cases ra with
    | ok v =>
      dsimp only at h ⊢
      cases h2 : (processFrom oc rest (i + 1)).2 with
      | error e =>
        rw [h2] at h
        simp [Except.map] at h
      | ok tail =>
        rw [ih (i + 1) tail h2, List.length_cons]
        exact range_map_shift rest.length i
    | raised e =>
      simp at h
    | exhausted =>
      dsimp only at h ⊢
      rw [ih (i + 1) data h, List.length_cons]
      exact range_map_shift rest.length i

/-! ### Claim C1: retry exhaustion policy -/

/-- A concrete document for embedder witnesses. -/
def docA : PyDoc := ⟨"Use object pooling.", "PERFORMANCE"⟩

/-- Embedding oracle that fails every attempt with a rate-limit error. -/
def ocAllRL : Nat → Nat → Except String (List (List Rat)) :=
  fun _ _ => .error "429 RESOURCE_EXHAUSTED"

/-- Embedding oracle that fails every attempt with a non-rate-limit
error. -/
def ocBoom : Nat → Nat → Except String (List (List Rat)) :=
  fun _ _ => .error "500 internal"

/-- Embedding oracle that always succeeds with one vector per document. -/
def ocOk : Nat → Nat → Except String (List (List Rat)) :=
  fun _ _ => .ok [[1]]

/-- C1 counterexample: with a batch whose 5 attempts all fail rate
limited, `create_embeddings` does not propagate any failure — it returns
the success message and writes an empty record list, silently dropping
the batch's document (the `for attempt` loop has no exhaustion re-raise). -/
theorem C1_counterexample :
    create_embeddings ocAllRL [docA] "out.json" 5 =
      ([.batchProcessed 0, .fileWrite []], .ok "Embeddings saved to out.json") := by
  rfl

/-- C1 (amended): for every batch, if every one of the 5 embedding
attempts fails with a rate-limit signal, the batch's data is silently
skipped — no records are appended, no failure propagates, and processing
continues with the subsequent batches; a non-rate-limit failure aborts
immediately on its first occurrence and propagates the error to the
caller. -/
theorem C1_retry_exhaustion_policy (oc : Nat → Nat → Except String (List (List Rat)))
    (b : List PyDoc) (rest : List (List PyDoc)) (i : Nat) :
    ((∀ a, a < 5 → ∃ e, oc i a = .error e ∧ isRateLimit e = true) →
      processFrom oc (b :: rest) i =
        (.batchProcessed i :: (processFrom oc rest (i + 1)).1,
          (processFrom oc rest (i + 1)).2)) ∧
    (∀ k e, k < 5 → oc i k = .error e → isRateLimit e = false →
      (∀ a, a < k → ∃ e2, oc i a = .error e2 ∧ isRateLimit e2 = true) →
      processFrom oc (b :: rest) i = ([], .error e)) := by
  constructor
  · intro hall
    rw [processFrom_cons,
      runAttempts_exhausted_of (oc i) 5 0 (fun j hj => by simpa using hall j hj)]
  · intro k e hk he hnr hbefore
    rw [processFrom_cons,
      runAttempts_raised_of (oc i) k 0 5 e hk
        (fun j hj => by simpa using hbefore j hj) (by simpa using he) hnr]

/-- C1 amended witness: a batch whose attempts all rate-limit is skipped
with processing continuing, and a batch with a non-rate-limit error
aborts with that error. -/
theorem C1_retry_exhaustion_policy_witness :
    processFrom ocAllRL [[docA]] 0 =
      (.batchProcessed 0 :: (processFrom ocAllRL [] 1).1,
        (processFrom ocAllRL [] 1).2) ∧
    processFrom ocBoom [[docA]] 0 = ([], .error "500 internal") :=
  ⟨(C1_retry_exhaustion_policy ocAllRL [docA] [] 0).1
    (fun a _ => ⟨"429 RESOURCE_EXHAUSTED", rfl, by decide⟩),
   (C1_retry_exhaustion_policy ocBoom [docA] [] 0).2 0 "500 internal"
    (by omega) rfl (by decide) (fun a ha => absurd ha (by omega))⟩

/-! ### Claim C10: single write after all batches, all-or-nothing -/

/-- C10: `create_embeddings` writes the output file exactly once, as the
final event after every batch's processed event; when any batch aborts
with a propagated failure, no write event occurs at all — nothing is
persisted, not even embeddings of earlier successful batches. -/
theorem C10_single_final_write (oc : Nat → Nat → Except String (List (List Rat)))
    (docs : List PyDoc) (path : String) (bs : Nat) :
    (∀ m, (create_embeddings oc docs path bs).2 = .ok m →
      ∃ data,
        (create_embeddings oc docs path bs).1 =
          (List.range (chunksOf bs docs).length).map
            (fun j => EmbEvent.batchProcessed j) ++ [.fileWrite data] ∧
        (create_embeddings oc docs path bs).1.filter isWriteEvent =
          [.fileWrite data] ∧
        (create_embeddings oc docs path bs).1.getLast? = some (.fileWrite data)) ∧
    (∀ e, (create_embeddings oc docs path bs).2 = .error e →
      (create_embeddings oc docs path bs).1.filter isWriteEvent = []) := by
  unfold create_embeddings
  dsimp only
  generalize hres : (processFrom oc (chunksOf bs docs) 0).2 = res
  cases res with
  | error e =>
    dsimp only
    constructor
    · intro m hm
      simp at hm
    · intro e2 _
      exact processFrom_no_write oc (chunksOf bs docs) 0
  | ok data =>
    dsimp only
    constructor
    · intro m _
      refine ⟨data, ?_, ?_, ?_⟩
      · rw [processFrom_events_of_ok oc (chunksOf bs docs) 0 data hres]
        congr 1
        apply List.map_congr_left
        intro a _
        rw [Nat.zero_add]
      · rw [List.filter_append, processFrom_no_write]
        rfl
      · simp
    · intro e he
      simp at he

/-- C10 witness: on a succeeding oracle the single write is final and
unique; on a failing oracle no write happens. -/
theorem C10_single_final_write_witness :
    (∃ data,
      (create_embeddings ocOk [docA] "out.json" 5).1 =
        (List.range (chunksOf 5 [docA]).length).map
          (fun j => EmbEvent.batchProcessed j) ++ [.fileWrite data] ∧
      (create_embeddings ocOk [docA] "out.json" 5).1.filter isWriteEvent =
        [.fileWrite data] ∧
      (create_embeddings ocOk [docA] "out.json" 5).1.getLast? =
        some (.fileWrite data)) ∧
    (create_embeddings ocBoom [docA] "out.json" 5).1.filter isWriteEvent = [] :=
  ⟨(C10_single_final_write ocOk [docA] "out.json" 5).1
    "Embeddings saved to out.json" rfl,
   (C10_single_final_write ocBoom [docA] "out.json" 5).2 "500 internal" rfl⟩
